import Mathlib

/-!
Verification of the kinematics line-fitting core of FitELP (src/kinematics.py).

The Python source analyses emission-line spectra: it converts wavelength
windows to a Doppler velocity frame, fits each line with a linear continuum
plus a fixed number of Gaussian components whose vary-flags depend on the
line's zone and name, propagates fitted centers and sigmas from each zone's
reference line to the dependent lines, and converts fitted sigmas to
intrinsic velocity dispersions.

Modelling conventions used throughout this file:
* Python/numpy floats are modelled exactly: inputs are rationals (every IEEE
  float is a rational), `np.inf`, `-np.inf` and `NaN` are explicit
  constructors of `Flt`, and values produced by `np.sqrt` live in `RFloat`
  (NaN or a real number).
* A Python function that can raise (an unbound local name, a missing
  dictionary key) is modelled as returning `Option`, with `none` for the
  raising path.
* The lmfit least-squares optimizer is an external library (not part of this
  repository); it is modelled by an uninterpreted oracle, with the documented
  lmfit contract that parameters whose vary-flag is `False` are held at their
  initial values while free parameters take optimizer-chosen values.
-/

namespace Kinematics

/-- Speed-of-light constant of the script (kinematics.py line 10):
`SpOfLi = 300000.` km/s. -/
def SpOfLi : ℚ := 300000

/-- Exactly representable Python/numpy float values: a rational, one of the
two infinities, or NaN.  Used for the parameter bounds (the source passes
`-np.inf` / `np.inf` as default bounds) and for the fit weights (where a
zero flux uncertainty makes `1./0.` evaluate to `inf`). -/
inductive Flt where
  | nan : Flt
  | pinf : Flt
  | ninf : Flt
  | val : ℚ → Flt
deriving DecidableEq, Repr

/-- A float value that may carry an irrational magnitude: either NaN or a
real number.  This is the result type of the `np.sqrt`-based computation in
`vel_dispersion`. -/
inductive RFloat where
  | nan : RFloat
  | val : ℝ → RFloat

/-- Multiplication of a possibly-NaN real float by an exact rational factor;
NaN propagates through multiplication exactly as in IEEE arithmetic. -/
def RFloat.scale (q : ℚ) : RFloat → RFloat
  | RFloat.nan => RFloat.nan
  | RFloat.val x => RFloat.val ((q : ℝ) * x)

/-- `np.sqrt` on an exactly represented (rational) input: NaN for a negative
argument (numpy emits a warning and returns NaN rather than raising),
otherwise the real square root. -/
noncomputable def npSqrt (x : ℚ) : RFloat :=
  if x < 0 then RFloat.nan else RFloat.val (Real.sqrt (x : ℝ))

/-- Instrumental sigma selected by `vel_dispersion` (kinematics.py lines
32-35): 4.9 for the `blue` filter and 5.6 for the `red` filter.  For any
other filter string `sigmaInstr` is never assigned and line 36 raises
(UnboundLocalError), modelled as `none`. -/
def sigmaInstrOf (filter : String) : Option ℚ :=
  if filter = "blue" then some 4.9
  else if filter = "red" then some 5.6
  else none

/-- `vel_dispersion` (kinematics.py lines 30-40).  Computes the intrinsic
velocity dispersion `sqrt(sigmaObs^2 - sigmaInstr^2 - sigmaTemp2)` and the
propagated error `0.5 * squareError / sigmaObs^2 * intrinsic` where
`squareError = 2 * sigmaObsError / sigmaObs * sigmaObs^2`.  The rational
divisions here are Lean's total division; the Python code would raise
ZeroDivisionError at `sigmaObsError / sigmaObs` for `sigmaObs = 0`, so the
theorems below always assume `sigmaObs` nonzero. -/
noncomputable def vel_dispersion (sigmaObs sigmaObsError sigmaTemp2 : ℚ)
    (filter : String) : Option (RFloat × RFloat) :=
  (sigmaInstrOf filter).map fun sigmaInstr =>
    let intrinsic := npSqrt (sigmaObs ^ 2 - sigmaInstr ^ 2 - sigmaTemp2)
    let squareError := 2 * sigmaObsError / sigmaObs * sigmaObs ^ 2
    let intrinsicError := RFloat.scale (0.5 * squareError / sigmaObs ^ 2) intrinsic
    (intrinsic, intrinsicError)

/-- `EmissionLineProfile._velocity` (kinematics.py lines 120-121): converts a
wavelength array to velocities, element-wise
`((wave - restWave) / restWave) * SpOfLi`. -/
def velocity (restWave : ℚ) (wave : List ℚ) : List ℚ :=
  wave.map fun w => ((w - restWave) / restWave) * SpOfLi

/-- The parameter set produced for one Gaussian component by
`FittingProfile._gaussian_component`: initial center / sigma / amplitude
values, their bounds, and the three vary-flags. -/
structure GaussParamSet where
  center : ℚ
  sigma : ℚ
  amplitude : ℚ
  cMin : Flt
  cMax : Flt
  sMin : Flt
  sMax : Flt
  aMin : Flt
  aMax : Flt
  varyCentre : Bool
  varySigma : Bool
  varyAmp : Bool
deriving DecidableEq, Repr

/-- `FittingProfile._gaussian_component` (kinematics.py lines 167-208).  The
vary-flags are chosen by the nested conditionals on `(zone, lineName)`; a
zone other than `low` / `high` leaves the flags unassigned and the
`pars[...].set` calls raise (UnboundLocalError), modelled as `none`. -/
def gaussian_component (zone lineName : String) (c s a : ℚ)
    (cMin cMax sMin sMax aMin aMax : Flt) : Option GaussParamSet :=
  if zone = "low" then
    if lineName = "H-Alpha" then
      some ⟨c, s, a, cMin, cMax, sMin, sMax, aMin, aMax, true, true, true⟩
    else if lineName ∈ ["NII-6584A", "SII-6717A", "OII-3729A"] then
      some ⟨c, s, a, cMin, cMax, sMin, sMax, aMin, aMax, false, true, true⟩
    else
      some ⟨c, s, a, cMin, cMax, sMin, sMax, aMin, aMax, false, false, true⟩
  else if zone = "high" then
    if lineName = "OIII-5007A" then
      some ⟨c, s, a, cMin, cMax, sMin, sMax, aMin, aMax, true, true, true⟩
    else
      some ⟨c, s, a, cMin, cMax, sMin, sMax, aMin, aMax, false, false, true⟩
  else none

/-- `_gaussian_component` called with the default bounds of its signature,
`cMin=-np.inf, cMax=np.inf, sMin=-np.inf, sMax=np.inf, aMin=-np.inf,
aMax=np.inf` — this is how `lin_and_multi_gaussian` (line 221) calls it. -/
def gaussian_component_default (zone lineName : String) (c s a : ℚ) :
    Option GaussParamSet :=
  gaussian_component zone lineName c s a
    Flt.ninf Flt.pinf Flt.ninf Flt.pinf Flt.ninf Flt.pinf

/-- `FittingProfile._weights` (kinematics.py lines 150-155): `None` when no
flux-uncertainty array was supplied, otherwise the element-wise reciprocal
`1./fluxError`.  numpy evaluates `1./0.` to `inf` (with a runtime warning,
not an error). -/
def FittingProfile.weights (fluxError : Option (List ℚ)) : Option (List Flt) :=
  match fluxError with
  | none => none
  | some fluxErrorCR =>
      some (fluxErrorCR.map fun e => if e = 0 then Flt.pinf else Flt.val (1 / e))

/-- `FittingProfile._get_amplitude` (kinematics.py lines 157-165): sums the
best-fit amplitudes of the `numOfComponents` components (here given as the
list `amps` of exactly those best values) and returns
`(amplitudeTotal / SpOfLi) * restWave`.  The two `print` statements are
side effects with no modelled content. -/
def FittingProfile.get_amplitude (restWave : ℚ) (amps : List ℚ) : ℚ :=
  (amps.sum / SpOfLi) * restWave

/-- The result of one `lin_and_multi_gaussian` call: the best-fit center,
sigma and amplitude of each Gaussian component, plus the fitted linear
continuum.  The `components` curves returned by the source
(`out.eval_components()`) are a deterministic function of these fitted
parameters. -/
structure FitResultModel where
  centers : List ℚ
  sigmas : List ℚ
  amps : List ℚ
  linSlope : ℚ
  linIntercept : ℚ
deriving DecidableEq, Repr

/-- Modelled from the spec: the nonlinear least-squares engine (`mod.fit`,
from the external lmfit library, not part of this repository) is an
uninterpreted oracle.  Per the spec's data model, the optimizer adjusts the
free parameters while parameters whose vary-flag is `False` are held
constant at their propagated initial values: a component's fitted
(center, sigma, amplitude) is the oracle's choice `o` where the flag is
true and the seeded initial value where it is false. -/
def fitComponent (o : ℚ × ℚ × ℚ) (p : Kinematics.GaussParamSet) : ℚ × ℚ × ℚ :=
  (if p.varyCentre then o.1 else p.center,
   if p.varySigma then o.2.1 else p.sigma,
   if p.varyAmp then o.2.2 else p.amplitude)

/-- The seed triples `(cList[i], sList[i], aList[i])` for
`i = 0 .. numOfComponents - 1` read by the loop at kinematics.py line 220;
indexing past the end of one of the lists raises IndexError, modelled as
`none`. -/
def seedTriples : ℕ → List ℚ → List ℚ → List ℚ → Option (List (ℚ × ℚ × ℚ))
  | 0, _, _, _ => some []
  | n + 1, c :: cs, s :: ss, a :: amps =>
      (seedTriples n cs ss amps).map fun ts => (c, s, a) :: ts
  | _ + 1, _, _, _ => none

/-- The Gaussian parameter sets built by the loop at kinematics.py lines
220-221: one `_gaussian_component` call (with default bounds) per seed
triple. -/
def buildComponents (zone lineName : String) :
    List (ℚ × ℚ × ℚ) → Option (List Kinematics.GaussParamSet)
  | [] => some []
  | t :: ts => do
    let g ← Kinematics.gaussian_component_default zone lineName t.1 t.2.1 t.2.2
    let gs ← buildComponents zone lineName ts
    pure (g :: gs)

/-- `FittingProfile.lin_and_multi_gaussian` (kinematics.py lines 210-244).
Builds the linear model (slope and intercept seeded from `lS`, `lI`, both
always free, so their fitted values come from the oracle `optLin`) plus one
Gaussian per component, runs the fit, computes the discarded
`_get_amplitude` value, and returns the fit result.  The plotting calls are
side effects with no modelled content. -/
def lin_and_multi_gaussian (opt : ℕ → ℚ × ℚ × ℚ) (optLin : ℚ × ℚ)
    (zone lineName : String) (restWave : ℚ) (numOfComponents : ℕ)
    (cList sList aList : List ℚ) (lS lI : ℚ) : Option FitResultModel := do
  let _linSeeds := (lS, lI)
  let seeds ← seedTriples numOfComponents cList sList aList
  let comps ← buildComponents zone lineName seeds
  let fitted := comps.enum.map fun ip => fitComponent (opt ip.1) ip.2
  let result : FitResultModel :=
    ⟨fitted.map fun t => t.1, fitted.map fun t => t.2.1, fitted.map fun t => t.2.2,
     optLin.1, optLin.2⟩
  let _amplitudeFinal :=
    Kinematics.FittingProfile.get_amplitude restWave (fitted.map fun t => t.2.2)
  pure result

/-- The pair of lists stored back into `emProfiles[emName]` by the driver
loop: `centerList` and `sigmaList` (the spec's ZoneKinematics entry for one
line). -/
structure Stored where
  centerList : List ℚ
  sigmaList : List ℚ
deriving DecidableEq, Repr

/-- `numComps = 3` (kinematics.py line 254). -/
def numComps : ℕ := 3

/-- Seed lists and continuum seeds for the two zones
(kinematics.py lines 290-297). -/
def centerListLowZone : List ℚ := [6349.20126, 6328.97820, 6315.53639]

def sigmaListLowZone : List ℚ := [19.2852694, 64.1684056, 22.2647170]

def linSlopeLowZone : ℚ := 1.9393e-7

def linIntLowZone : ℚ := 0.00761986

def centerListHighZone : List ℚ := [6348.46630, 6333.03711, 6314.57965]

def sigmaListHighZone : List ℚ := [15.9660139, 56.3804782, 16.6302799]

def linSlopeHighZone : ℚ := 2.6129e-6

def linIntHighZone : ℚ := -0.00147764

/-- The `(cList, sList)` pair passed to `lin_and_multi_gaussian` for a
low-zone line by the driver loop (kinematics.py lines 310-335): the external
seeds for the reference line `H-Alpha`; for every other line the `H-Alpha`
fitted center list together with either the `H-Alpha` fitted sigma list, or
— for the three explicitly linked doublet lines — the sigma list stored for
the named sibling.  A lookup of a list that has not been stored yet is a
KeyError in Python, modelled as `none`. -/
def lowSeeds (results : String → Option Stored) (emName : String) :
    Option (List ℚ × List ℚ) :=
  if emName = "H-Alpha" then some (centerListLowZone, sigmaListLowZone)
  else do
    let ha ← results "H-Alpha"
    if emName ∈ ["NII-6584A", "SII-6717A", "OII-3729A"] then
      pure (ha.centerList, ha.sigmaList)
    else if emName = "NII-6548A" then do
      let sib ← results "NII-6584A"
      pure (ha.centerList, sib.sigmaList)
    else if emName = "SII-6731A" then do
      let sib ← results "SII-6717A"
      pure (ha.centerList, sib.sigmaList)
    else if emName = "OII-3726A" then do
      let sib ← results "OII-3729A"
      pure (ha.centerList, sib.sigmaList)
    else
      pure (ha.centerList, ha.sigmaList)

/-- Processing of one low-zone line by the driver loop (kinematics.py lines
310-336): compute the seed lists, fit, and form the `Stored` entry written
back into `emProfiles[emName]` (fitted centers/sigmas for the reference
line; the inherited center list with fitted sigmas for the three
free-sigma lines; the inherited center and sigma lists for all others). -/
def lowStep (opt : ℕ → ℚ × ℚ × ℚ) (optLin : ℚ × ℚ)
    (results : String → Option Stored) (emName : String) (restWave : ℚ)
    (ampList : List ℚ) : Option (FitResultModel × Stored) := do
  let seeds ← lowSeeds results emName
  let fr ← lin_and_multi_gaussian opt optLin "low" emName restWave numComps
    seeds.1 seeds.2 ampList linSlopeLowZone linIntLowZone
  let st : Stored :=
    if emName = "H-Alpha" then ⟨fr.centers, fr.sigmas⟩
    else if emName ∈ ["NII-6584A", "SII-6717A", "OII-3729A"] then
      ⟨seeds.1, fr.sigmas⟩
    else ⟨seeds.1, seeds.2⟩
  pure (fr, st)

/-- The `(cList, sList)` pair passed to `lin_and_multi_gaussian` for a
high-zone line (kinematics.py lines 338-349): the external seeds for the
reference line `OIII-5007A`, and the `OIII-5007A` fitted center and sigma
lists for every other line. -/
def highSeeds (results : String → Option Stored) (emName : String) :
    Option (List ℚ × List ℚ) :=
  if emName = "OIII-5007A" then some (centerListHighZone, sigmaListHighZone)
  else do
    let ref ← results "OIII-5007A"
    pure (ref.centerList, ref.sigmaList)

/-- Processing of one high-zone line by the driver loop (kinematics.py
lines 338-350). -/
def highStep (opt : ℕ → ℚ × ℚ × ℚ) (optLin : ℚ × ℚ)
    (results : String → Option Stored) (emName : String) (restWave : ℚ)
    (ampList : List ℚ) : Option (FitResultModel × Stored) := do
  let seeds ← highSeeds results emName
  let fr ← lin_and_multi_gaussian opt optLin "high" emName restWave numComps
    seeds.1 seeds.2 ampList linSlopeHighZone linIntHighZone
  let st : Stored :=
    if emName = "OIII-5007A" then ⟨fr.centers, fr.sigmas⟩
    else ⟨seeds.1, seeds.2⟩
  pure (fr, st)

/-- The line whose stored sigma list a given low-zone non-reference line
inherits (kinematics.py lines 327-334): the named sibling for the three
doublet lines, the zone reference `H-Alpha` for every other line. -/
def lowSigmaSource (emName : String) : String :=
  if emName = "NII-6548A" then "NII-6584A"
  else if emName = "SII-6731A" then "SII-6717A"
  else if emName = "OII-3726A" then "OII-3729A"
  else "H-Alpha"

/-- Claim C1: for every Gaussian component built for a fit, the vary-flags
are determined by `(zone, lineName)` exactly as: zone `low` with name
`H-Alpha` leaves center, sigma and amplitude all free; zone `low` with name
in {NII-6584A, SII-6717A, OII-3729A} fixes center and leaves sigma and
amplitude free; any other `low` name fixes center and sigma and leaves
amplitude free; zone `high` with name `OIII-5007A` leaves all three free;
any other `high` name fixes center and sigma and leaves amplitude free; and
in every case the parameter bounds default to `(-inf, +inf)` when not
explicitly supplied. -/
theorem C1_vary_flags_and_default_bounds (lineName : String) (c s a : ℚ) :
    gaussian_component_default "low" "H-Alpha" c s a =
      some ⟨c, s, a, Flt.ninf, Flt.pinf, Flt.ninf, Flt.pinf, Flt.ninf, Flt.pinf,
        true, true, true⟩
    ∧ (lineName ∈ ["NII-6584A", "SII-6717A", "OII-3729A"] →
        gaussian_component_default "low" lineName c s a =
          some ⟨c, s, a, Flt.ninf, Flt.pinf, Flt.ninf, Flt.pinf, Flt.ninf, Flt.pinf,
            false, true, true⟩)
    ∧ (lineName ≠ "H-Alpha" → lineName ∉ ["NII-6584A", "SII-6717A", "OII-3729A"] →
        gaussian_component_default "low" lineName c s a =
          some ⟨c, s, a, Flt.ninf, Flt.pinf, Flt.ninf, Flt.pinf, Flt.ninf, Flt.pinf,
            false, false, true⟩)
    ∧ gaussian_component_default "high" "OIII-5007A" c s a =
      some ⟨c, s, a, Flt.ninf, Flt.pinf, Flt.ninf, Flt.pinf, Flt.ninf, Flt.pinf,
        true, true, true⟩
    ∧ (lineName ≠ "OIII-5007A" →
        gaussian_component_default "high" lineName c s a =
          some ⟨c, s, a, Flt.ninf, Flt.pinf, Flt.ninf, Flt.pinf, Flt.ninf, Flt.pinf,
            false, false, true⟩) := by
  refine ⟨?_, ?_, ?_, ?_, ?_⟩
  · simp [gaussian_component_default, gaussian_component]
  · intro h
    simp only [List.mem_cons, List.not_mem_nil, or_false] at h
    rcases h with rfl | rfl | rfl <;>
      simp [gaussian_component_default, gaussian_component]
  · intro h1 h2
    simp [gaussian_component_default, gaussian_component, h1, h2]
  · simp [gaussian_component_default, gaussian_component]
  · intro h
    simp [gaussian_component_default, gaussian_component, h]

/-- Witness for C1: the vary-flag table evaluated at the concrete line names
`NII-6584A` (low, center fixed), `H-Beta` (low, center and sigma fixed) and
`H-Beta` again in the high zone. -/
theorem C1_vary_flags_and_default_bounds_witness :
    gaussian_component_default "low" "NII-6584A" 1 2 3 =
      some ⟨1, 2, 3, Flt.ninf, Flt.pinf, Flt.ninf, Flt.pinf, Flt.ninf, Flt.pinf,
        false, true, true⟩
    ∧ gaussian_component_default "low" "H-Beta" 1 2 3 =
      some ⟨1, 2, 3, Flt.ninf, Flt.pinf, Flt.ninf, Flt.pinf, Flt.ninf, Flt.pinf,
        false, false, true⟩
    ∧ gaussian_component_default "high" "H-Beta" 1 2 3 =
      some ⟨1, 2, 3, Flt.ninf, Flt.pinf, Flt.ninf, Flt.pinf, Flt.ninf, Flt.pinf,
        false, false, true⟩ :=
  ⟨(C1_vary_flags_and_default_bounds "NII-6584A" 1 2 3).2.1 (by decide),
   (C1_vary_flags_and_default_bounds "H-Beta" 1 2 3).2.2.1 (by decide) (by decide),
   (C1_vary_flags_and_default_bounds "H-Beta" 1 2 3).2.2.2.2 (by decide)⟩

/-- Claim C4: for every wavelength array and every rest wavelength
`restWave > 0`, the velocity conversion returns
`((wave - restWave) / restWave) * 300000` element-wise; consequently it maps
`wave = restWave` to velocity `0` and is strictly monotonically increasing
in wavelength. -/
theorem C4_velocity_conversion (restWave : ℚ) (wave : List ℚ)
    (hpos : 0 < restWave) :
    velocity restWave wave = wave.map (fun w => ((w - restWave) / restWave) * 300000)
    ∧ velocity restWave [restWave] = [0]
    ∧ StrictMono (fun w : ℚ => ((w - restWave) / restWave) * 300000) := by
  refine ⟨rfl, ?_, ?_⟩
  · simp [velocity]
  · intro a b hab
    have h1 : (a - restWave) / restWave < (b - restWave) / restWave :=
      (div_lt_div_iff_of_pos_right hpos).mpr (by linarith)
    exact mul_lt_mul_of_pos_right h1 (by norm_num)

/-- Witness for C4: the velocity conversion at rest wavelength 2 on the
array `[1, 2, 3]`. -/
theorem C4_velocity_conversion_witness :
    velocity 2 [1, 2, 3] = [1, 2, 3].map (fun w => ((w - 2) / 2) * 300000)
    ∧ velocity 2 [2] = [0]
    ∧ StrictMono (fun w : ℚ => ((w - 2) / 2) * 300000) :=
  C4_velocity_conversion 2 [1, 2, 3] (by norm_num)

/-- Claim C6: calling the dispersion corrector with a filter string other
than `blue` or `red` (for example `green`) raises; `vel_dispersion` never
assigns `sigmaInstr` and errors at its first use, modelled as `none`. -/
theorem C6_unknown_filter_errors (sigmaObs sigmaObsError sigmaTemp2 : ℚ)
    (filter : String) (hb : filter ≠ "blue") (hr : filter ≠ "red") :
    vel_dispersion sigmaObs sigmaObsError sigmaTemp2 filter = none := by
  simp [vel_dispersion, sigmaInstrOf, hb, hr]

/-- Witness for C6: the filter string `green` errors. -/
theorem C6_unknown_filter_errors_witness :
    vel_dispersion 1 1 1 "green" = none :=
  C6_unknown_filter_errors 1 1 1 "green" (by decide) (by decide)

/-- Helper: `vel_dispersion` unfolded for a recognised filter. -/
theorem vel_dispersion_eq (sigmaObs sigmaObsError sigmaTemp2 sI : ℚ)
    (filter : String) (hf : sigmaInstrOf filter = some sI) :
    vel_dispersion sigmaObs sigmaObsError sigmaTemp2 filter =
      some (npSqrt (sigmaObs ^ 2 - sI ^ 2 - sigmaTemp2),
        RFloat.scale (0.5 * (2 * sigmaObsError / sigmaObs * sigmaObs ^ 2) / sigmaObs ^ 2)
          (npSqrt (sigmaObs ^ 2 - sI ^ 2 - sigmaTemp2))) := by
  unfold vel_dispersion
  rw [hf, Option.map_some']

/-- Helper: the two-step error coefficient, rewritten with the `sigmaObs`
factors cancelled but the `0.5 * (...) / sigmaObs^2` shape kept. -/
theorem vel_dispersion_coef (sigmaObs sigmaObsError : ℚ) (h0 : sigmaObs ≠ 0) :
    (0.5 * (2 * sigmaObsError / sigmaObs * sigmaObs ^ 2) / sigmaObs ^ 2 : ℚ)
      = 0.5 * (2 * sigmaObsError * sigmaObs) / sigmaObs ^ 2 := by
  field_simp
  ring

/-- Helper: the two-step error coefficient fully simplified. -/
theorem vel_dispersion_coef_simPle (sigmaObs sigmaObsError : ℚ) (h0 : sigmaObs ≠ 0) :
    (0.5 * (2 * sigmaObsError / sigmaObs * sigmaObs ^ 2) / sigmaObs ^ 2 : ℚ)
      = sigmaObsError / sigmaObs := by
  field_simp
  ring

/-- Helper: numeric bracketing of `sqrt 75.99`. -/
theorem sqrt_7599_bounds : |Real.sqrt 75.99 - 8.718| < 1 / 1000 := by
  have h1 : Real.sqrt 75.99 < 8.719 := by
    rw [show (8.719 : ℝ) = Real.sqrt (8.719 ^ 2) by rw [Real.sqrt_sq]; norm_num]
    apply Real.sqrt_lt_sqrt <;> norm_num
  have h2 : (8.717 : ℝ) < Real.sqrt 75.99 := by
    rw [show (8.717 : ℝ) = Real.sqrt (8.717 ^ 2) by rw [Real.sqrt_sq]; norm_num]
    apply Real.sqrt_lt_sqrt <;> norm_num
  rw [abs_sub_lt_iff]
  constructor <;> linarith

/-- Claim C2: for filter `blue` (instrumental sigma 4.9) or `red`
(instrumental sigma 5.6), and every `sigmaObs > 0` with
`sigmaObs^2 >= sigmaInstr^2 + sigmaTemp2`, `vel_dispersion` returns
`intrinsic = sqrt(sigmaObs^2 - sigmaInstr^2 - sigmaTemp2)` and
`intrinsicError = 0.5 * (2*sigmaObsError*sigmaObs) / sigmaObs^2 * intrinsic`;
in particular for blue, `sigmaObs = 10`, `sigmaTemp2 = 0` the intrinsic
dispersion is `sqrt 75.99`, approximately 8.718. -/
theorem C2_vel_dispersion_formula (sigmaObs sigmaObsError sigmaTemp2 sI : ℚ)
    (filter : String) (hf : sigmaInstrOf filter = some sI) (hpos : 0 < sigmaObs)
    (hrad : sI ^ 2 + sigmaTemp2 ≤ sigmaObs ^ 2) :
    vel_dispersion sigmaObs sigmaObsError sigmaTemp2 filter =
      some (RFloat.val (Real.sqrt ((sigmaObs ^ 2 - sI ^ 2 - sigmaTemp2 : ℚ) : ℝ)),
        RFloat.val (((0.5 * (2 * sigmaObsError * sigmaObs) / sigmaObs ^ 2 : ℚ) : ℝ) *
          Real.sqrt ((sigmaObs ^ 2 - sI ^ 2 - sigmaTemp2 : ℚ) : ℝ)))
    ∧ sigmaInstrOf "blue" = some 4.9
    ∧ sigmaInstrOf "red" = some 5.6
    ∧ (vel_dispersion 10 (1 / 10) 0 "blue").map Prod.fst
        = some (RFloat.val (Real.sqrt 75.99))
    ∧ |Real.sqrt 75.99 - 8.718| < 1 / 1000 := by
  refine ⟨?_, rfl, rfl, ?_, sqrt_7599_bounds⟩
  · have hnn : ¬(sigmaObs ^ 2 - sI ^ 2 - sigmaTemp2 < 0) := by linarith
    rw [vel_dispersion_eq sigmaObs sigmaObsError sigmaTemp2 sI filter hf,
      vel_dispersion_coef sigmaObs sigmaObsError (ne_of_gt hpos)]
    simp only [npSqrt, if_neg hnn, RFloat.scale]
  · have hnn : ¬((10 : ℚ) ^ 2 - (4.9 : ℚ) ^ 2 - (0 : ℚ) < 0) := by norm_num
    rw [vel_dispersion_eq 10 (1 / 10) 0 4.9 "blue" rfl]
    simp only [npSqrt, if_neg hnn, RFloat.scale, Option.map_some', Prod.fst]
    norm_num

/-- Witness for C2: the blue filter at `sigmaObs = 10`,
`sigmaObsError = 1/10`, `sigmaTemp2 = 0`. -/
theorem C2_vel_dispersion_formula_witness :
    vel_dispersion 10 (1 / 10) 0 "blue" =
      some (RFloat.val (Real.sqrt (((10 : ℚ) ^ 2 - (4.9 : ℚ) ^ 2 - (0 : ℚ) : ℚ) : ℝ)),
        RFloat.val (((0.5 * (2 * (1 / 10) * 10) / 10 ^ 2 : ℚ) : ℝ) *
          Real.sqrt (((10 : ℚ) ^ 2 - (4.9 : ℚ) ^ 2 - (0 : ℚ) : ℚ) : ℝ))) :=
  (C2_vel_dispersion_formula 10 (1 / 10) 0 4.9 "blue" rfl (by norm_num)
    (by norm_num)).1

/-- Claim C7: when `sigmaObs^2 < sigmaInstr^2 + sigmaTemp2` (negative
radicand), `vel_dispersion` returns NaN as the intrinsic dispersion and a
NaN propagated error, rather than raising an error or reporting the
condition.  (`sigmaObs ≠ 0` keeps the error-propagation divisions on the
non-raising Python path.) -/
theorem C7_negative_radicand_nan (sigmaObs sigmaObsError sigmaTemp2 sI : ℚ)
    (filter : String) (hf : sigmaInstrOf filter = some sI) (_h0 : sigmaObs ≠ 0)
    (hneg : sigmaObs ^ 2 < sI ^ 2 + sigmaTemp2) :
    vel_dispersion sigmaObs sigmaObsError sigmaTemp2 filter =
      some (RFloat.nan, RFloat.nan) := by
  have hlt : sigmaObs ^ 2 - sI ^ 2 - sigmaTemp2 < 0 := by linarith
  rw [vel_dispersion_eq sigmaObs sigmaObsError sigmaTemp2 sI filter hf]
  simp only [npSqrt, if_pos hlt, RFloat.scale]

/-- Witness for C7: the blue filter at `sigmaObs = 1` (radicand
`1 - 24.01 < 0`). -/
theorem C7_negative_radicand_nan_witness :
    vel_dispersion 1 1 0 "blue" = some (RFloat.nan, RFloat.nan) :=
  C7_negative_radicand_nan 1 1 0 4.9 "blue" rfl (by norm_num) (by norm_num)

/-- Claim C8: for every `sigmaObs ≠ 0`, the two-step error computation in
`vel_dispersion` (`squareError = 2 * sigmaObsError / sigmaObs * sigmaObs^2`,
then `intrinsicError = 0.5 * squareError / sigmaObs^2 * intrinsic`) equals
the single expression
`intrinsicError = (sigmaObsError / sigmaObs) * intrinsic`. -/
theorem C8_error_two_step_collapse (sigmaObs sigmaObsError sigmaTemp2 sI : ℚ)
    (filter : String) (hf : sigmaInstrOf filter = some sI) (h0 : sigmaObs ≠ 0) :
    vel_dispersion sigmaObs sigmaObsError sigmaTemp2 filter =
      some (npSqrt (sigmaObs ^ 2 - sI ^ 2 - sigmaTemp2),
        RFloat.scale (sigmaObsError / sigmaObs)
          (npSqrt (sigmaObs ^ 2 - sI ^ 2 - sigmaTemp2))) := by
  rw [vel_dispersion_eq sigmaObs sigmaObsError sigmaTemp2 sI filter hf,
    vel_dispersion_coef_simPle sigmaObs sigmaObsError h0]

/-- Witness for C8: the blue filter at `sigmaObs = 10`,
`sigmaObsError = 3`, `sigmaTemp2 = 7`. -/
theorem C8_error_two_step_collapse_witness :
    vel_dispersion 10 3 7 "blue" =
      some (npSqrt (10 ^ 2 - (4.9 : ℚ) ^ 2 - 7),
        RFloat.scale (3 / 10) (npSqrt (10 ^ 2 - (4.9 : ℚ) ^ 2 - 7))) :=
  C8_error_two_step_collapse 10 3 7 4.9 "blue" rfl (by norm_num)

/-- Claim C10: the fit weights are `None` exactly when no flux-uncertainty
array is supplied; when one is supplied, the weights are its element-wise
reciprocal `1 / fluxError` with no guard against zero entries — a zero
uncertainty yields an infinite weight rather than an error. -/
theorem C10_weights_reciprocal (es : List ℚ) (fe : Option (List ℚ)) :
    FittingProfile.weights none = none
    ∧ FittingProfile.weights (some es) =
        some (es.map fun e => if e = 0 then Flt.pinf else Flt.val (1 / e))
    ∧ (FittingProfile.weights fe = none ↔ fe = none)
    ∧ ((0 : ℚ) ∈ es → Flt.pinf ∈ (FittingProfile.weights (some es)).getD []) := by
  refine ⟨rfl, rfl, ?_, ?_⟩
  · cases fe <;> simp [FittingProfile.weights]
  · intro h
    simp only [FittingProfile.weights, Option.getD_some]
    exact List.mem_map.mpr ⟨0, h, by simp⟩

/-- Witness for C10: the flux-error array `[0, 2]` produces the weights
`[inf, 1/2]`; in particular its zero entry produces an infinite weight. -/
theorem C10_weights_reciprocal_witness :
    FittingProfile.weights (some [0, 2]) =
      some ([0, 2].map fun e => if e = 0 then Flt.pinf else Flt.val (1 / e))
    ∧ Flt.pinf ∈ (FittingProfile.weights (some [0, 2])).getD [] :=
  ⟨(C10_weights_reciprocal [0, 2] none).2.1,
   (C10_weights_reciprocal [0, 2] none).2.2.2 (by decide)⟩

/-- Claim C9: for every fit result over N components, `_get_amplitude`
returns `(sum of the N best-fit component amplitudes) * restWave / 300000`,
and `lin_and_multi_gaussian` discards this returned value (only printing
it), so the (fit result, components) pair it returns is unaffected by the
amplitude conversion — in particular it does not depend on `restWave`,
which only feeds the amplitude conversion. -/
theorem C9_amplitude_conversion_discarded (restWave : ℚ) (amps : List ℚ) :
    FittingProfile.get_amplitude restWave amps = amps.sum * restWave / 300000
    ∧ ∀ (opt : ℕ → ℚ × ℚ × ℚ) (optLin : ℚ × ℚ) (zone lineName : String)
        (rw1 rw2 : ℚ) (n : ℕ) (cs ss aList : List ℚ) (lS lI : ℚ),
        lin_and_multi_gaussian opt optLin zone lineName rw1 n cs ss aList lS lI =
          lin_and_multi_gaussian opt optLin zone lineName rw2 n cs ss aList lS lI := by
  constructor
  · show (amps.sum / 300000) * restWave = amps.sum * restWave / 300000
    rw [div_mul_eq_mul_div]
  · intro opt optLin zone lineName rw1 rw2 n cs ss aList lS lI
    rfl

/-- Claim C5: attempting to fit the dependent line `NII-6548A` before its
named sibling `NII-6584A` has a recorded fit result errors (a KeyError on
`emProfiles['NII-6584A']['sigmaList']` in the source, the spec's
OrderingError), modelled as `none`. -/
theorem C5_ordering_error (opt : ℕ → ℚ × ℚ × ℚ) (optLin : ℚ × ℚ)
    (results : String → Option Stored) (restWave : ℚ) (ampList : List ℚ)
    (h : results "NII-6584A" = none) :
    lowSeeds results "NII-6548A" = none
    ∧ lowStep opt optLin results "NII-6548A" restWave ampList = none := by
  have hseeds : lowSeeds results "NII-6548A" = none := by
    unfold lowSeeds
    cases hha : results "H-Alpha" with
    | none => simp [hha]
    | some ha => simp [hha, h]
  exact ⟨hseeds, by simp [lowStep, hseeds]⟩

/-- Witness for C5: a results store holding only an `H-Alpha` entry — so
`NII-6584A` has no recorded result yet — errors when `NII-6548A` is
processed. -/
theorem C5_ordering_error_witness :
    lowSeeds (fun n => if n = "H-Alpha" then some ⟨[1], [2]⟩ else none)
      "NII-6548A" = none
    ∧ lowStep (fun _ => (0, 0, 0)) (0, 0)
        (fun n => if n = "H-Alpha" then some ⟨[1], [2]⟩ else none)
        "NII-6548A" 1 [1] = none :=
  C5_ordering_error (fun _ => (0, 0, 0)) (0, 0)
    (fun n => if n = "H-Alpha" then some ⟨[1], [2]⟩ else none) 1 [1] (by decide)

/-- Helper: the seed triples are the first `n` centers, sigmas and
amplitudes. -/
theorem seedTriples_parts (n : ℕ) :
    ∀ (cs ss amps : List ℚ) (l : List (ℚ × ℚ × ℚ)),
      seedTriples n cs ss amps = some l →
      l.map (fun t => t.1) = cs.take n ∧ l.map (fun t => t.2.1) = ss.take n := by
  induction n with
  | zero =>
    intro cs ss amps l h
    simp only [seedTriples, Option.some.injEq] at h
    subst h
    simp
  | succ n ih =>
    intro cs ss amps l h
    match cs, ss, amps with
    | [], _, _ => simp [seedTriples] at h
    | c :: cs, [], _ => simp [seedTriples] at h
    | c :: cs, s :: ss, [] => simp [seedTriples] at h
    | c :: cs, s :: ss, a :: amps =>
      simp only [seedTriples, Option.map_eq_some'] at h
      obtain ⟨ts, hts, rfl⟩ := h
      obtain ⟨h1, h2⟩ := ih cs ss amps ts hts
      simp [h1, h2]

/-- Helper: for a line whose vary-flags are (center fixed, sigma fixed,
amplitude free), every built component is the seeded parameter set with
those flags. -/
theorem buildComponents_fixed (zone lineName : String)
    (hflag : ∀ c s a : ℚ, gaussian_component_default zone lineName c s a =
      some ⟨c, s, a, Flt.ninf, Flt.pinf, Flt.ninf, Flt.pinf, Flt.ninf, Flt.pinf,
        false, false, true⟩) :
    ∀ l : List (ℚ × ℚ × ℚ),
      buildComponents zone lineName l =
        some (l.map fun t => ⟨t.1, t.2.1, t.2.2, Flt.ninf, Flt.pinf, Flt.ninf,
          Flt.pinf, Flt.ninf, Flt.pinf, false, false, true⟩) := by
  intro l
  induction l with
  | nil => rfl
  | cons t ts ih => simp [buildComponents, hflag, ih]

/-- Helper: mapping a function of the entry over an enumerated list ignores
the indices. -/
theorem enum_map_snd_comp {α β : Type} (f : α → β) (l : List α) :
    l.enum.map (fun p => f p.2) = l.map f := by
  have h1 : (fun p : ℕ × α => f p.2) = f ∘ Prod.snd := rfl
  rw [h1, ← List.map_map, List.enum_map_snd]

/-- Helper: for a line whose vary-flags are (center fixed, sigma fixed,
amplitude free), a successful `lin_and_multi_gaussian` fit returns exactly
the first `n` seeded centers and sigmas, whatever the optimizer does. -/
theorem lin_fit_fixed (opt : ℕ → ℚ × ℚ × ℚ) (optLin : ℚ × ℚ)
    (zone lineName : String) (restWave : ℚ) (n : ℕ) (cs ss amps : List ℚ)
    (lS lI : ℚ)
    (hflag : ∀ c s a : ℚ, gaussian_component_default zone lineName c s a =
      some ⟨c, s, a, Flt.ninf, Flt.pinf, Flt.ninf, Flt.pinf, Flt.ninf, Flt.pinf,
        false, false, true⟩)
    (fr : FitResultModel)
    (hfr : lin_and_multi_gaussian opt optLin zone lineName restWave n
      cs ss amps lS lI = some fr) :
    fr.centers = cs.take n ∧ fr.sigmas = ss.take n := by
  unfold lin_and_multi_gaussian at hfr
  cases hseeds : seedTriples n cs ss amps with
  | none => rw [hseeds] at hfr; simp at hfr
  | some l =>
    rw [hseeds] at hfr
    simp only [Option.bind_eq_bind, Option.some_bind] at hfr
    rw [buildComponents_fixed zone lineName hflag l] at hfr
    simp only [Option.some_bind, Option.pure_def, Option.some.injEq] at hfr
    obtain ⟨h1, h2⟩ := seedTriples_parts n cs ss amps l hseeds
    subst hfr
    constructor
    · rw [← h1]
      dsimp only
      rw [List.enum_map, List.map_map, List.map_map]
      exact enum_map_snd_comp (fun t => t.1) l
    · rw [← h2]
      dsimp only
      rw [List.enum_map, List.map_map, List.map_map]
      exact enum_map_snd_comp (fun t => t.2.1) l

/-- Helper: taking `numComps` elements of a length-3 list is the identity. -/
theorem take_numComps_of_len3 (l : List ℚ) (h : l.length = 3) :
    l.take numComps = l := by
  have h2 : numComps = l.length := by rw [h]; rfl
  rw [h2, List.take_length]

/-- Claim C3: after the zone's reference line (`H-Alpha` for zone `low`,
`OIII-5007A` for zone `high`) has been fit, every other line in that zone is
fit with its component center list taken from the reference line's fitted
centers, and with its sigma list taken from the reference line's fitted
sigmas except for the named pairs NII-6548A (from NII-6584A), SII-6731A
(from SII-6717A) and OII-3726A (from OII-3729A), which take the sigma list
of that already-fit sibling; for a dependent line whose center and sigma
are fixed, the fit result reproduces exactly those inherited center and
sigma values. -/
theorem C3_kinematics_propagation (opt : ℕ → ℚ × ℚ × ℚ) (optLin : ℚ × ℚ)
    (results : String → Option Stored) (emName : String) (restWave : ℚ)
    (ampList : List ℚ) (ha src oiii : Stored) :
    (results "H-Alpha" = some ha → emName ≠ "H-Alpha" →
      results (lowSigmaSource emName) = some src →
      lowSeeds results emName = some (ha.centerList, src.sigmaList)
      ∧ (emName ∉ ["NII-6584A", "SII-6717A", "OII-3729A"] →
          ha.centerList.length = 3 → src.sigmaList.length = 3 →
          ∀ fr st, lowStep opt optLin results emName restWave ampList =
              some (fr, st) →
            fr.centers = ha.centerList ∧ fr.sigmas = src.sigmaList))
    ∧ (results "OIII-5007A" = some oiii → emName ≠ "OIII-5007A" →
        highSeeds results emName = some (oiii.centerList, oiii.sigmaList)
        ∧ (oiii.centerList.length = 3 → oiii.sigmaList.length = 3 →
            ∀ fr st, highStep opt optLin results emName restWave ampList =
                some (fr, st) →
              fr.centers = oiii.centerList ∧ fr.sigmas = oiii.sigmaList)) := by
  constructor
  · intro hHA hne hsrc
    have hseeds : lowSeeds results emName = some (ha.centerList, src.sigmaList) := by
      unfold lowSeeds
      rw [if_neg hne]
      by_cases h1 : emName = "NII-6548A"
      · subst h1
        simp only [lowSigmaSource] at hsrc
        simp at hsrc
        simp [hHA, hsrc]
      · by_cases h2 : emName = "SII-6731A"
        · subst h2
          simp only [lowSigmaSource] at hsrc
          simp at hsrc
          simp [hHA, hsrc]
        · by_cases h3 : emName = "OII-3726A"
          · subst h3
            simp only [lowSigmaSource] at hsrc
            simp at hsrc
            simp [hHA, hsrc]
          · simp only [lowSigmaSource, if_neg h1, if_neg h2, if_neg h3] at hsrc
            rw [hHA] at hsrc
            obtain rfl : ha = src := by injection hsrc
            by_cases hmid : emName ∈ ["NII-6584A", "SII-6717A", "OII-3729A"]
            · simp [hHA, hmid]
            · simp [hHA, hmid, h1, h2, h3]
    refine ⟨hseeds, ?_⟩
    intro hnotmid hlc hls fr st hstep
    have hflag : ∀ c s a : ℚ, gaussian_component_default "low" emName c s a =
        some ⟨c, s, a, Flt.ninf, Flt.pinf, Flt.ninf, Flt.pinf, Flt.ninf, Flt.pinf,
          false, false, true⟩ := by
      intro c s a
      simp [gaussian_component_default, gaussian_component, hne, hnotmid]
    unfold lowStep at hstep
    rw [hseeds] at hstep
    simp only [Option.bind_eq_bind, Option.some_bind] at hstep
    cases hlin : lin_and_multi_gaussian opt optLin "low" emName restWave numComps
        (ha.centerList, src.sigmaList).1 (ha.centerList, src.sigmaList).2 ampList
        linSlopeLowZone linIntLowZone with
    | none => rw [hlin] at hstep; simp at hstep
    | some fr' =>
      rw [hlin] at hstep
      simp only [Option.some_bind, Option.pure_def, Option.some.injEq,
        Prod.mk.injEq] at hstep
      obtain ⟨rfl, -⟩ := hstep
      obtain ⟨hc, hs⟩ := lin_fit_fixed opt optLin "low" emName restWave numComps
        ha.centerList src.sigmaList ampList linSlopeLowZone linIntLowZone hflag
        fr' hlin
      rw [hc, hs, take_numComps_of_len3 _ hlc, take_numComps_of_len3 _ hls]
      exact ⟨rfl, rfl⟩
  · intro hOIII hne
    have hseeds : highSeeds results emName = some (oiii.centerList, oiii.sigmaList) := by
      unfold highSeeds
      rw [if_neg hne]
      simp [hOIII]
    refine ⟨hseeds, ?_⟩
    intro hlc hls fr st hstep
    have hflag : ∀ c s a : ℚ, gaussian_component_default "high" emName c s a =
        some ⟨c, s, a, Flt.ninf, Flt.pinf, Flt.ninf, Flt.pinf, Flt.ninf, Flt.pinf,
          false, false, true⟩ := by
      intro c s a
      simp [gaussian_component_default, gaussian_component, hne]
    unfold highStep at hstep
    rw [hseeds] at hstep
    simp only [Option.bind_eq_bind, Option.some_bind] at hstep
    cases hlin : lin_and_multi_gaussian opt optLin "high" emName restWave numComps
        (oiii.centerList, oiii.sigmaList).1 (oiii.centerList, oiii.sigmaList).2
        ampList linSlopeHighZone linIntHighZone with
    | none => rw [hlin] at hstep; simp at hstep
    | some fr' =>
      rw [hlin] at hstep
      simp only [Option.some_bind, Option.pure_def, Option.some.injEq,
        Prod.mk.injEq] at hstep
      obtain ⟨rfl, -⟩ := hstep
      obtain ⟨hc, hs⟩ := lin_fit_fixed opt optLin "high" emName restWave numComps
        oiii.centerList oiii.sigmaList ampList linSlopeHighZone linIntHighZone hflag
        fr' hlin
      rw [hc, hs, take_numComps_of_len3 _ hlc, take_numComps_of_len3 _ hls]
      exact ⟨rfl, rfl⟩

/-- A concrete results store for exercising the propagation step: the two
zone references have fitted center and sigma lists recorded, nothing else
has been fit yet. -/
def demoResults : String → Option Stored := fun n =>
  if n = "H-Alpha" then some ⟨[1, 2, 3], [4, 5, 6]⟩
  else if n = "OIII-5007A" then some ⟨[7, 8, 9], [10, 11, 12]⟩ else none

/-- A concrete optimizer oracle that answers 0 for every free parameter. -/
def demoOpt : ℕ → ℚ × ℚ × ℚ := fun _ => (0, 0, 0)

/-- Witness for C3: the dependent line `H-Beta` (center and sigma fixed in
both zones) inherits the reference line's fitted centers `[1,2,3]` and
sigmas `[4,5,6]` in the low zone (resp. `[7,8,9]`, `[10,11,12]` in the high
zone), and its fit result reproduces them exactly. -/
theorem C3_kinematics_propagation_witness :
    lowSeeds demoResults "H-Beta" = some ([1, 2, 3], [4, 5, 6])
    ∧ highSeeds demoResults "H-Beta" = some ([7, 8, 9], [10, 11, 12])
    ∧ (lowStep demoOpt (0, 0) demoResults "H-Beta" 1 [1, 1, 1]).map
        (fun p => (p.1.centers, p.1.sigmas)) = some ([1, 2, 3], [4, 5, 6]) := by
  have h := C3_kinematics_propagation demoOpt (0, 0) demoResults "H-Beta" 1
    [1, 1, 1] ⟨[1, 2, 3], [4, 5, 6]⟩ ⟨[1, 2, 3], [4, 5, 6]⟩
    ⟨[7, 8, 9], [10, 11, 12]⟩
  obtain ⟨hlow, hhigh⟩ := h
  have hlow2 := hlow (by decide) (by decide) (by decide)
  have hhigh2 := hhigh (by decide) (by decide)
  have hstep : lowStep demoOpt (0, 0) demoResults "H-Beta" 1 [1, 1, 1] =
      some (⟨[1, 2, 3], [4, 5, 6], [0, 0, 0], 0, 0⟩, ⟨[1, 2, 3], [4, 5, 6]⟩) := by
    decide
  have hres := hlow2.2 (by decide) (by decide) (by decide) _ _ hstep
  refine ⟨hlow2.1, hhigh2.1, ?_⟩
  rw [hstep]
  exact congrArg some (congrArg₂ Prod.mk hres.1 hres.2)

end Kinematics
